import Mathlib

/-
Verification of the SpotiFLAC download orchestrator.

Shallow embedding of the core orchestration, retry and caching logic of
`bulk_download_manager.py` and `SpotiFLAC.py`.  File-system state is modelled
as a map from paths to file sizes (`none` = the path does not exist), network
adapters as oracles indexed by the attempt number, and the cooperative
stop flag as a predicate on the poll points where the code reads it.
-/

namespace SpotiFLAC

/-- Models Python `line.strip()`: drop leading and trailing whitespace.
Stated over the character list of the string so that it evaluates by kernel
reduction. -/
def pyStrip (s : String) : String :=
  String.mk (((s.data.dropWhile Char.isWhitespace).reverse.dropWhile
    Char.isWhitespace).reverse)

/-- Helper for substring containment: `needle` occurs somewhere in `hay`. -/
def listHasSub : List Char → List Char → Bool
  | hay, needle =>
    needle.isPrefixOf hay ||
      match hay with
      | [] => false
      | _ :: t => listHasSub t needle

/-- Models the Python expression `needle in s` (substring containment). -/
def pyIn (needle s : String) : Bool :=
  listHasSub s.data needle.data

/-- Models Python `s.lower()` for the ASCII strings handled here. -/
def pyLower (s : String) : String :=
  String.mk (s.data.map Char.toLower)

/-- Models Python `s.startswith(needle)`. -/
def pyStartsWith (s needle : String) : Bool :=
  needle.data.isPrefixOf s.data

/-- Models `re.sub(r'[<>:"/\\|?*]', '_', s)`: every character of the class is
replaced by an underscore, one by one. -/
def sanitize (s : String) : String :=
  String.mk (s.data.map (fun c =>
    if c = '<' ∨ c = '>' ∨ c = ':' ∨ c = '\"' ∨ c = '/' ∨ c = '\\' ∨
       c = '|' ∨ c = '?' ∨ c = '*' then '_' else c))

/-- Models the Python format `f"{n:02d}"` for a non-negative `n`. -/
def pad2 (n : Nat) : String :=
  if n < 10 then "0" ++ toString n else toString n

/-- Models `os.path.join(a, b)` for a relative second component on POSIX. -/
def pathJoin (a b : String) : String :=
  if a = "" then b else a ++ "/" ++ b

/-- A file system: maps a path to the size of the file stored there,
`none` when the path does not exist.  `os.path.exists p` is `(fs p).isSome`
and `os.path.getsize p` is the size carried by `some`. -/
abbrev FileSys : Type := String → Option Nat

/-- Models `os.path.exists(p) and os.path.getsize(p) > 0`. -/
def existsNonEmpty (fs : FileSys) (p : String) : Bool :=
  match fs p with
  | some sz => 0 < sz
  | none => false

end SpotiFLAC

namespace BulkManager

open SpotiFLAC

/-- Module constant `MAX_METADATA_RETRIES = 5` of `bulk_download_manager.py`. -/
def MAX_METADATA_RETRIES : Nat := 5

/-- Module constant `MAX_DOWNLOAD_RETRIES = 10` of `bulk_download_manager.py`. -/
def MAX_DOWNLOAD_RETRIES : Nat := 10

/-- Module constant `INITIAL_RETRY_DELAY = 2` of `bulk_download_manager.py`. -/
def INITIAL_RETRY_DELAY : ℚ := 2

/-- Module constant `MAX_RETRY_DELAY = 30` of `bulk_download_manager.py`. -/
def MAX_RETRY_DELAY : ℚ := 30

/-- Module constant `BACKOFF_MULTIPLIER = 1.5` of `bulk_download_manager.py`. -/
def BACKOFF_MULTIPLIER : ℚ := 3 / 2

/-- The `Track` dataclass of `bulk_download_manager.py`. -/
structure Track where
  external_urls : String
  title : String
  artists : String
  album : String
  track_number : Nat
  duration_ms : Nat
  id : String
  isrc : String := ""
  preview_url : String := ""
deriving Repr, DecidableEq

/-- The `BulkConfiguration` dataclass of `bulk_download_manager.py`.
The numeric fields are Python `int`s; they are non-negative in the dataclass
defaults and everywhere the GUI constructs a configuration, so they are
carried as `Nat`. `deezer_speed` is a Python float with default `7.5`. -/
structure BulkConfiguration where
  service : String := "tidal"
  qobuz_region : String := "us"
  deezer_speed : ℚ := 15 / 2
  output_directory : String := ""
  filename_format : String := "title_artist"
  use_track_numbers : Bool := true
  use_album_subfolders : Bool := true
  max_concurrent_downloads : Nat := 1
  retry_404_enabled : Bool := true
  retry_404_max_attempts : Nat := 10
  retry_404_delay : Nat := 3
deriving Repr, DecidableEq

/-- The `BulkItem` dataclass of `bulk_download_manager.py`.  The `metadata`
dict is raw provider output never read by the logic under verification and is
omitted.  A `failed_tracks` entry is the `(title, artists, error)` triple
appended by `_download_tracks_for_item`. -/
structure BulkItem where
  url : String
  line_number : Nat
  status : String := "pending"
  error_message : String := ""
  retry_count : Nat := 0
  tracks_count : Nat := 0
  downloaded_count : Nat := 0
  failed_tracks : List (String × String × String) := []
  item_type : String := ""
  title : String := ""
  output_path : String := ""
  tracks : List Track := []
deriving Repr, DecidableEq

/-- The acceptance test applied by `_load_urls_from_file` to one stripped
line: `if url and not url.startswith('#') and 'spotify.com' in url`. -/
def lineAccepted (url : String) : Bool :=
  url ≠ "" ∧ ¬ pyStartsWith url "#" ∧ pyIn "spotify.com" url

/-- The loop body of `_load_urls_from_file`: walk the lines of the input file
carrying the 1-based line number `n`, strip each line, and append a fresh
`BulkItem` for every accepted line. -/
def loadUrlsLoop : List String → Nat → List BulkItem
  | [], _ => []
  | l :: rest, n =>
    let url := pyStrip l
    if lineAccepted url then
      { url := url, line_number := n } :: loadUrlsLoop rest (n + 1)
    else
      loadUrlsLoop rest (n + 1)

/-- `_load_urls_from_file`: returns the loaded items, or the error emitted via
`error_occurred` when no line is accepted (in which case `run` returns with
zero items processed). -/
def loadUrlsFromFile (lines : List String) : Except String (List BulkItem) :=
  let items := loadUrlsLoop lines 1
  if items = [] then Except.error "No valid Spotify URLs found in file"
  else Except.ok items

/-- Follows the spec's words (§6 Batch input): the lines that are non-empty
after trimming, do not start with `#` and contain the source-domain marker,
in file order, each paired with its original 1-based line number. -/
def specAcceptedLines (lines : List String) : List (String × Nat) :=
  ((List.enumFrom 1 lines).map (fun p => (pyStrip p.2, p.1))).filter
    (fun p => lineAccepted p.1)

/-- `_get_formatted_filename`: base name from the configured template, a
two-digit track number for albums (and playlists with album subfolders) when
numbering is on, then character sanitization of the whole name. -/
def getFormattedFilename (cfg : BulkConfiguration) (track : Track)
    (item : BulkItem) : String :=
  let filename :=
    if cfg.filename_format = "artist_title" then
      track.artists ++ " - " ++ track.title ++ ".flac"
    else if cfg.filename_format = "title_only" then
      track.title ++ ".flac"
    else
      track.title ++ " - " ++ track.artists ++ ".flac"
  let filename :=
    if (item.item_type = "album" ∨
        (item.item_type = "playlist" ∧ cfg.use_album_subfolders)) ∧
        cfg.use_track_numbers then
      pad2 track.track_number ++ " - " ++ filename
    else filename
  sanitize filename

/-- Outcome of one service-adapter invocation inside
`_download_single_track_with_retry`, abstracting the three service branches
(qobuz / deezer / tidal) uniformly: the adapter either produces a file
(`ok`, covering the rename/copy epilogue), reports the tidal user-stop dict
(`stopSentinel`, error string `"Download stopped by user"`), raises
`requests.exceptions.HTTPError` with a status code, or raises any other
exception with a message. -/
inductive AdapterResult where
  | ok
  | stopSentinel
  | httpError (status : Nat) (msg : String)
  | exc (msg : String)
deriving Repr, DecidableEq

/-- The ambient state read by one per-track download: the file system, the
value of the cooperative `is_stopped` flag at the top of each attempt, and the
adapter's behaviour on each attempt (both indexed by the 1-based attempt
number). -/
structure DownloadEnv where
  fs : FileSys
  stopAt : Nat → Bool
  adapter : Nat → AdapterResult

/-- Observable result of `_download_single_track_with_retry`: the returned
`(success, message)` pair, how many times the service adapter was invoked,
and the backoff delays actually slept (in order). -/
structure DlOutcome where
  success : Bool
  message : String
  adapterCalls : Nat
  sleeps : List ℚ
deriving Repr, DecidableEq

/-- One backoff update: `retry_delay = min(retry_delay * 1.5, 30)`. -/
def backoffStep (d : ℚ) : ℚ :=
  min (d * (3 / 2)) 30

/-- `max_attempts = self.config.retry_404_max_attempts if
self.config.retry_404_enabled else 1`. -/
def maxAttemptsFor (cfg : BulkConfiguration) : Nat :=
  if cfg.retry_404_enabled then cfg.retry_404_max_attempts else 1

/-- The attempt loop of `_download_single_track_with_retry`.  `maxA` is the
computed `max_attempts`, `fuel` the number of remaining loop iterations
(initially `maxA`), `a` the 1-based attempt counter and `d` the current
`retry_delay`.  Per attempt: the stop flag is polled, then the destination
file is checked (`exists and getsize > 0` short-circuits with success), then
the service branch runs — each of the three services first fails the track
without retry when the ISRC is missing, otherwise invokes the adapter.  An
HTTP 404 (or an exception whose lowercased message contains "404") sleeps
`d` and retries with `min(d * 1.5, 30)` while attempts remain; every other
error fails the track at once.  Falling off the loop yields
`Failed after N attempts`. -/
def downloadAttemptLoop (cfg : BulkConfiguration) (track : Track)
    (item : BulkItem) (env : DownloadEnv) (maxA : Nat) :
    Nat → Nat → ℚ → DlOutcome
  | 0, _, _ =>
    ⟨false, "Failed after " ++ toString maxA ++ " attempts", 0, []⟩
  | fuel + 1, a, d =>
    if env.stopAt a then ⟨false, "Stopped by user", 0, []⟩
    else
      if existsNonEmpty env.fs
          (pathJoin item.output_path (getFormattedFilename cfg track item)) then
        ⟨true, "File already exists", 0, []⟩
      else if cfg.service = "qobuz" ∧ track.isrc = "" then
        ⟨false, "No ISRC available for Qobuz", 0, []⟩
      else if cfg.service = "deezer" ∧ track.isrc = "" then
        ⟨false, "No ISRC available for Deezer", 0, []⟩
      else if cfg.service = "tidal" ∧ track.isrc = "" then
        ⟨false, "No ISRC available for Tidal", 0, []⟩
      else
        match env.adapter a with
        | AdapterResult.ok => ⟨true, "Download completed", 1, []⟩
        | AdapterResult.stopSentinel =>
          ⟨false, "Download stopped by user", 1, []⟩
        | AdapterResult.httpError status msg =>
          if status = 404 ∧ a < maxA then
            let o := downloadAttemptLoop cfg track item env maxA fuel (a + 1)
              (backoffStep d)
            ⟨o.success, o.message, o.adapterCalls + 1, d :: o.sleeps⟩
          else
            ⟨false, "HTTP " ++ toString status ++ ": " ++ msg, 1, []⟩
        | AdapterResult.exc msg =>
          if a < maxA ∧ pyIn "404" (pyLower msg) then
            let o := downloadAttemptLoop cfg track item env maxA fuel (a + 1)
              (backoffStep d)
            ⟨o.success, o.message, o.adapterCalls + 1, d :: o.sleeps⟩
          else
            ⟨false, msg, 1, []⟩

/-- `_download_single_track_with_retry`: runs the attempt loop starting at
attempt 1 with `retry_delay = self.config.retry_404_delay`. -/
def downloadSingleTrackWithRetry (cfg : BulkConfiguration) (track : Track)
    (item : BulkItem) (env : DownloadEnv) : DlOutcome :=
  downloadAttemptLoop cfg track item env (maxAttemptsFor cfg)
    (maxAttemptsFor cfg) 1 (cfg.retry_404_delay : ℚ)

/-- The mutable counters touched by `_download_tracks_for_item`: the owning
item's `downloaded_count` and `failed_tracks`, and the run-wide tracker's
`downloaded_tracks` and `failed_tracks`. -/
structure ItemLoopState where
  downloaded_count : Nat := 0
  failed_tracks : List (String × String × String) := []
  tracker_downloaded : Nat := 0
  tracker_failed : Nat := 0
deriving Repr, DecidableEq

/-- The per-track loop of `_download_tracks_for_item`: for each track (with
its 0-based index `i`), first poll the stop flag and break if set; otherwise
obtain the `(success, error_msg)` result of the per-track download and update
either the success counters or the failure records. -/
def downloadTracksLoop (result : Nat → Track → Bool × String)
    (stoppedBefore : Nat → Bool) :
    List Track → Nat → ItemLoopState → ItemLoopState
  | [], _, st => st
  | t :: rest, i, st =>
    if stoppedBefore i then st
    else
      let r := result i t
      let st' :=
        if r.1 then
          { st with downloaded_count := st.downloaded_count + 1,
                    tracker_downloaded := st.tracker_downloaded + 1 }
        else
          { st with
              failed_tracks := st.failed_tracks ++ [(t.title, t.artists, r.2)],
              tracker_failed := st.tracker_failed + 1 }
      downloadTracksLoop result stoppedBefore rest (i + 1) st'

/-- The per-track result used by `_download_tracks_for_item` at line 443:
the `(success, error_msg)` pair of `_download_single_track_with_retry`, the
environment being indexed by the track's position. -/
def itemTrackResult (cfg : BulkConfiguration) (item : BulkItem)
    (envAt : Nat → DownloadEnv) (i : Nat) (t : Track) : Bool × String :=
  let o := downloadSingleTrackWithRetry cfg t item (envAt i)
  (o.success, o.message)

/-- `_download_tracks_for_item` on a freshly fetched item: counters start at
the `BulkItem` dataclass defaults (0 downloads, no failed tracks). -/
def downloadTracksForItem (cfg : BulkConfiguration) (item : BulkItem)
    (envAt : Nat → DownloadEnv) (stoppedBefore : Nat → Bool) : ItemLoopState :=
  downloadTracksLoop (itemTrackResult cfg item envAt) stoppedBefore
    item.tracks 0 {}

/-- The `BulkProgressTracker` counters (the wall-clock `start_time` is not
modelled; it is only read by the ETA estimate). -/
structure BulkProgressTracker where
  total_urls : Nat := 0
  processed_urls : Nat := 0
  successful_urls : Nat := 0
  failed_urls : Nat := 0
  total_tracks : Nat := 0
  downloaded_tracks : Nat := 0
  failed_tracks : Nat := 0
  current_url_index : Nat := 0
deriving Repr, DecidableEq

/-- `BulkProgressTracker.start_tracking`. -/
def BulkProgressTracker.start_tracking (t : BulkProgressTracker)
    (total : Nat) : BulkProgressTracker :=
  { t with total_urls := total }

/-- `BulkProgressTracker.get_progress_percentage`:
`(processed_urls / total_urls) * 100`, and `0.0` when `total_urls == 0`. -/
def BulkProgressTracker.get_progress_percentage
    (t : BulkProgressTracker) : ℚ :=
  if t.total_urls = 0 then 0
  else ((t.processed_urls : ℚ) / (t.total_urls : ℚ)) * 100

/-- `BulkProgressTracker.get_track_progress_percentage`. -/
def BulkProgressTracker.get_track_progress_percentage
    (t : BulkProgressTracker) : ℚ :=
  if t.total_tracks = 0 then 0
  else ((t.downloaded_tracks : ℚ) / (t.total_tracks : ℚ)) * 100

/-- The `progress_data` dict built by `_emit_progress_update` (the
`estimated_time_remaining` field is wall-clock derived and not modelled;
`successful_urls` and `failed_urls` are the two list-comprehension counts
over `bulk_items`, passed through here as parameters). -/
structure ProgressEventData where
  total_urls : Nat
  processed_urls : Nat
  successful_urls : Nat
  failed_urls : Nat
  total_tracks : Nat
  downloaded_tracks : Nat
  failed_tracks : Nat
  progress_percentage : ℚ
  track_progress_percentage : ℚ
deriving Repr, DecidableEq

/-- `_emit_progress_update`: the event's `processed_urls` field is
`current_url_index + 1`, while the percentage fields are computed by the
tracker's own getter methods. -/
def emitProgressUpdate (t : BulkProgressTracker)
    (successfulUrls failedUrls : Nat) : ProgressEventData :=
  { total_urls := t.total_urls
    processed_urls := t.current_url_index + 1
    successful_urls := successfulUrls
    failed_urls := failedUrls
    total_tracks := t.total_tracks
    downloaded_tracks := t.downloaded_tracks
    failed_tracks := t.failed_tracks
    progress_percentage := t.get_progress_percentage
    track_progress_percentage := t.get_track_progress_percentage }

/-- Every mutation of the progress tracker performed anywhere in
`BulkDownloadManager.run` and its callees: `start_tracking` (run, line 172),
`current_url_index = i` (run, line 188), `total_tracks += tracks_count`
(`_fetch_metadata_for_item`, line 305), `downloaded_tracks += 1` and
`failed_tracks += 1` (`_download_tracks_for_item`, lines 447/456).  The
methods `update_url_progress` and `update_track_progress` have no caller in
the repository, so no operation writes `processed_urls`. -/
inductive TrackerOp where
  | startTracking (total : Nat)
  | setCurrentUrlIndex (i : Nat)
  | addTotalTracks (n : Nat)
  | incrDownloadedTracks
  | incrFailedTracks
deriving Repr, DecidableEq

/-- Applies one tracker mutation. -/
def applyTrackerOp (t : BulkProgressTracker) : TrackerOp → BulkProgressTracker
  | TrackerOp.startTracking n => t.start_tracking n
  | TrackerOp.setCurrentUrlIndex i => { t with current_url_index := i }
  | TrackerOp.addTotalTracks n => { t with total_tracks := t.total_tracks + n }
  | TrackerOp.incrDownloadedTracks =>
    { t with downloaded_tracks := t.downloaded_tracks + 1 }
  | TrackerOp.incrFailedTracks =>
    { t with failed_tracks := t.failed_tracks + 1 }

/-- Applies a sequence of tracker mutations in order. -/
def applyTrackerOps (t : BulkProgressTracker) :
    List TrackerOp → BulkProgressTracker
  | [] => t
  | op :: rest => applyTrackerOps (applyTrackerOp t op) rest

/-- Spec-side shape of the backoff delay sequence: `n` delays starting at `d`,
each obtained from the previous one by `backoffStep`. -/
def backoffChain (d : ℚ) : Nat → List ℚ
  | 0 => []
  | n + 1 => d :: backoffChain (backoffStep d) n

end BulkManager

namespace MainApp

open SpotiFLAC

/-- Module constant `MAX_DOWNLOAD_RETRIES = 3` of `SpotiFLAC.py`. -/
def MAX_DOWNLOAD_RETRIES : Nat := 3

/-- Module constant `RETRY_DELAY_SECONDS = 2` of `SpotiFLAC.py`. -/
def RETRY_DELAY_SECONDS : ℚ := 2

/-- The `Track` dataclass of `SpotiFLAC.py`, carrying the mutable playback
cache fields `cached_file`, `is_downloading` and `cache_error` on top of the
descriptor fields. -/
structure Track where
  external_urls : String
  title : String
  artists : String
  album : String
  track_number : Nat
  duration_ms : Nat
  id : String
  isrc : String := ""
  preview_url : String := ""
  cached_file : String := ""
  is_downloading : Bool := false
  cache_error : String := ""
deriving Repr, DecidableEq

/-- The state shared between the GUI thread and `CacheDownloadWorker`: the
loaded track list and the pending `download_queue` of track indices. -/
structure CacheWorkerState where
  tracks : List Track
  download_queue : List Nat := []
deriving Repr, DecidableEq

/-- `CacheDownloadWorker.add_to_queue`: under the mutex, a track index is
appended to the queue (and the track marked as downloading) only when it is
in range and the track is not already cached, not already downloading and has
no recorded cache error; otherwise the state is untouched.  Python truthiness
of the string fields is emptiness. -/
def add_to_queue (st : CacheWorkerState) (track_index : Nat) :
    CacheWorkerState :=
  match st.tracks[track_index]? with
  | none => st
  | some track =>
    if track.cached_file = "" ∧ track.is_downloading = false ∧
        track.cache_error = "" then
      { tracks :=
          st.tracks.set track_index { track with is_downloading := true },
        download_queue := st.download_queue ++ [track_index] }
    else st

/-- `CacheDownloadWorker._handle_error`: clears `is_downloading` and records
the error message on the track.  (Out-of-range indices never reach it: the
worker only passes indices popped from the queue.) -/
def handle_error (st : CacheWorkerState) (track_index : Nat) (msg : String) :
    CacheWorkerState :=
  match st.tracks[track_index]? with
  | none => st
  | some track =>
    { st with
        tracks := st.tracks.set track_index
          { track with is_downloading := false, cache_error := msg } }

/-- The success epilogue of `CacheDownloadWorker._perform_download` (both the
cache-hit return and the post-download `os.replace` path): records the cache
file on the track and clears `is_downloading`. -/
def mark_cached (st : CacheWorkerState) (track_index : Nat) (path : String) :
    CacheWorkerState :=
  match st.tracks[track_index]? with
  | none => st
  | some track =>
    { st with
        tracks := st.tracks.set track_index
          { track with cached_file := path, is_downloading := false } }

/-- The operations that touch the shared cache-worker state over the lifetime
of one loaded track list: `add_to_queue` calls from the GUI thread, the
worker popping the queue head (`download_queue.pop(0)`), and the two
terminal updates of one download (`mark_cached` on success, `handle_error`
on exhausted retries). -/
inductive CacheOp where
  | add (i : Nat)
  | popQueue
  | markCached (i : Nat) (path : String)
  | handleErr (i : Nat) (msg : String)
deriving Repr, DecidableEq

/-- Applies one cache-worker operation. -/
def applyCacheOp (st : CacheWorkerState) : CacheOp → CacheWorkerState
  | CacheOp.add i => add_to_queue st i
  | CacheOp.popQueue => { st with download_queue := st.download_queue.drop 1 }
  | CacheOp.markCached i p => mark_cached st i p
  | CacheOp.handleErr i m => handle_error st i m

/-- Applies a sequence of cache-worker operations in order. -/
def applyCacheOps (st : CacheWorkerState) : List CacheOp → CacheWorkerState
  | [] => st
  | op :: rest => applyCacheOps (applyCacheOp st op) rest

/-- A Python exception raised by one caching attempt: either
`requests.exceptions.HTTPError` with a status code, or any other exception
with a message. -/
inductive PyExc where
  | httpError (status : Nat) (msg : String)
  | exc (msg : String)
deriving Repr, DecidableEq

/-- Observable result of `CacheDownloadWorker._download_with_retry`: whether
`_perform_download` returned, the error recorded via `_handle_error` (if
any), the number of attempts made, and the delays slept between attempts. -/
structure CacheOutcome where
  ok : Bool
  recordedError : Option String
  attempts : Nat
  sleeps : List ℚ
deriving Repr, DecidableEq

/-- The cache file name built by `_perform_download`:
`f"{safe_title} - {safe_artists}.flac"` after sanitizing both parts. -/
def cacheFileName (track : Track) : String :=
  sanitize track.title ++ " - " ++ sanitize track.artists ++ ".flac"

/-- The cache-hit test of `_perform_download`: the cache file exists and has
non-zero size. -/
def cacheHit (fs : FileSys) (cache_dir : String) (track : Track) : Bool :=
  existsNonEmpty fs (pathJoin cache_dir (cacheFileName track))

/-- The attempt loop of `CacheDownloadWorker._download_with_retry`.  `hit`
is the cache-hit test of `_perform_download` (which short-circuits before any
network work) and `oracle a` the outcome of the rest of `_perform_download`
on attempt `a`.  An HTTP 404 with attempts remaining, or any other exception
with attempts remaining, sleeps the constant `RETRY_DELAY_SECONDS` and
retries; otherwise the error is recorded via `_handle_error`. -/
def cacheRetryLoop (hit : Bool) (oracle : Nat → Except PyExc Unit) :
    Nat → Nat → CacheOutcome
  | 0, _ => ⟨false, none, 0, []⟩
  | fuel + 1, a =>
    match (if hit then Except.ok () else oracle a) with
    | Except.ok _ => ⟨true, none, 1, []⟩
    | Except.error (PyExc.httpError status msg) =>
      if status = 404 ∧ a < MAX_DOWNLOAD_RETRIES then
        let o := cacheRetryLoop hit oracle fuel (a + 1)
        ⟨o.ok, o.recordedError, o.attempts + 1, RETRY_DELAY_SECONDS :: o.sleeps⟩
      else
        ⟨false, some ("HTTP " ++ toString status ++ ": " ++ msg), 1, []⟩
    | Except.error (PyExc.exc msg) =>
      if a < MAX_DOWNLOAD_RETRIES then
        let o := cacheRetryLoop hit oracle fuel (a + 1)
        ⟨o.ok, o.recordedError, o.attempts + 1, RETRY_DELAY_SECONDS :: o.sleeps⟩
      else
        ⟨false, some msg, 1, []⟩

/-- `CacheDownloadWorker._download_with_retry`: up to
`MAX_DOWNLOAD_RETRIES` attempts starting at attempt 1. -/
def download_with_retry (hit : Bool) (oracle : Nat → Except PyExc Unit) :
    CacheOutcome :=
  cacheRetryLoop hit oracle MAX_DOWNLOAD_RETRIES 1

/-- The `DownloadWorker` construction parameters read by its per-track loop.
`cache_dir` defaults to Python `None`; both `None` and the empty string are
falsy at the cache check, so absence is modelled as the empty string. -/
structure DownloadWorkerCfg where
  outpath : String
  is_single_track : Bool := false
  is_album : Bool := false
  is_playlist : Bool := false
  album_or_playlist_name : String := ""
  filename_format : String := "title_artist"
  use_track_numbers : Bool := true
  use_album_subfolders : Bool := false
  service : String := "tidal"
  cache_dir : String := ""
deriving Repr, DecidableEq

/-- `DownloadWorker.get_formatted_filename`. -/
def workerFormattedFilename (w : DownloadWorkerCfg) (t : Track) : String :=
  let filename :=
    if w.filename_format = "artist_title" then
      t.artists ++ " - " ++ t.title ++ ".flac"
    else if w.filename_format = "title_only" then
      t.title ++ ".flac"
    else
      t.title ++ " - " ++ t.artists ++ ".flac"
  sanitize filename

/-- The per-track output directory of `DownloadWorker.run` (lines 292-297):
an album subfolder for playlists with album subfolders enabled. -/
def workerTrackOutpath (w : DownloadWorkerCfg) (t : Track) : String :=
  if w.is_playlist ∧ w.use_album_subfolders then
    pathJoin w.outpath (sanitize t.album)
  else w.outpath

/-- The destination file name of `DownloadWorker.run` (lines 299-304):
optional two-digit track number, then a second sanitization pass. -/
def workerNewFilename (w : DownloadWorkerCfg) (t : Track) : String :=
  sanitize
    (if (w.is_album ∨ (w.is_playlist ∧ w.use_album_subfolders)) ∧
        w.use_track_numbers then
      pad2 t.track_number ++ " - " ++ workerFormattedFilename w t
    else workerFormattedFilename w t)

/-- The resolved destination path `new_filepath` of `DownloadWorker.run`. -/
def workerNewFilepath (w : DownloadWorkerCfg) (t : Track) : String :=
  pathJoin (workerTrackOutpath w t) (workerNewFilename w t)

/-- Which of the three entry branches `DownloadWorker.run` takes for one
track before any service download: skip because the destination already
exists with non-zero size (lines 307-311), copy from the pre-fetch cache
(lines 313-323, the `shutil.copy2` being modelled as succeeding), or fall
through to the per-service download. -/
inductive WorkerBranch where
  | skippedExisting
  | copiedFromCache
  | serviceDownload
deriving Repr, DecidableEq

/-- The branch selection of `DownloadWorker.run` for one track: the
destination check requires existence and non-zero size, while the cache check
(line 314) requires only `self.cache_dir and track.cached_file and
os.path.exists(track.cached_file)`. -/
def workerTrackBranch (w : DownloadWorkerCfg) (t : Track) (fs : FileSys) :
    WorkerBranch :=
  if existsNonEmpty fs (workerNewFilepath w t) then
    WorkerBranch.skippedExisting
  else if w.cache_dir ≠ "" ∧ t.cached_file ≠ "" ∧ (fs t.cached_file).isSome then
    WorkerBranch.copiedFromCache
  else
    WorkerBranch.serviceDownload

end MainApp

namespace BulkManager

open SpotiFLAC

/-- Fixture: the default configuration (tidal service, retry enabled). -/
def cfg0 : BulkConfiguration := {}

/-- Fixture: a track with an ISRC. -/
def track0 : Track :=
  { external_urls := "https://open.spotify.com/track/x", title := "T",
    artists := "A", album := "Alb", track_number := 1, duration_ms := 200000,
    id := "x", isrc := "QZABC1234567" }

/-- Fixture: a single-track item after a successful metadata fetch. -/
def item0 : BulkItem :=
  { url := "https://open.spotify.com/track/x", line_number := 1,
    tracks_count := 1, item_type := "track", title := "T",
    output_path := "out", tracks := [track0] }

/-- Fixture: an empty file system. -/
def fsEmpty : FileSys := fun _ => none

/-- Fixture: the adapter reports the tidal user-stop dict on every attempt
(the user pressed stop while the download was in flight). -/
def envStopSentinel : DownloadEnv :=
  ⟨fsEmpty, fun _ => false, fun _ => AdapterResult.stopSentinel⟩

/-- Fixture: the `is_stopped` flag is already set when the attempt begins. -/
def envStopFlagSet : DownloadEnv :=
  ⟨fsEmpty, fun _ => true, fun _ => AdapterResult.ok⟩

/-- Fixture: the adapter raises a transient (non-404) network error on every
attempt. -/
def envTransient : DownloadEnv :=
  ⟨fsEmpty, fun _ => false, fun _ => AdapterResult.exc "connection reset by peer"⟩

/-- Fixture: the destination file `out/T - A.flac` already exists with 5
bytes. -/
def fsDestPresent : FileSys :=
  fun p => if p = "out/T - A.flac" then some 5 else none

/-- Fixture: destination already present; the adapter would raise if it were
ever consulted. -/
def envDestPresent : DownloadEnv :=
  ⟨fsDestPresent, fun _ => false, fun _ => AdapterResult.exc "must not be called"⟩

end BulkManager

namespace MainApp

open SpotiFLAC

/-- Fixture: a `DownloadWorker` writing to `out` with the pre-fetch cache
directory set. -/
def wCache : DownloadWorkerCfg := { outpath := "out", cache_dir := "/cache" }

/-- Fixture: a track whose pre-fetch cache file was recorded. -/
def tCached : Track :=
  { external_urls := "https://open.spotify.com/track/x", title := "T",
    artists := "A", album := "Alb", track_number := 1, duration_ms := 200000,
    id := "x", isrc := "QZABC1234567", cached_file := "/cache/T - A.flac" }

/-- Fixture: the cached file exists with size zero (an interrupted write) and
nothing else exists. -/
def fsZeroByteCache : FileSys :=
  fun p => if p = "/cache/T - A.flac" then some 0 else none

/-- Fixture: a one-track list whose caching already failed. -/
def stErrored : CacheWorkerState :=
  { tracks := [{ external_urls := "u", title := "T", artists := "A",
                 album := "Alb", track_number := 1, duration_ms := 1,
                 id := "x", cache_error := "HTTP 404: not found" }] }

/-- Does applying this operation keep every recorded `cache_error`
non-empty?  Only `_handle_error` writes the field, with `str(exception)`,
which is non-empty for every exception this code raises or re-raises. -/
def cacheOpKeepsError : CacheOp → Bool
  | CacheOp.handleErr _ m => m ≠ ""
  | _ => true

end MainApp

namespace BulkManager

open SpotiFLAC

theorem loadUrlsLoop_spec (lines : List String) (n : Nat) :
    (loadUrlsLoop lines n).map (fun it => (it.url, it.line_number)) =
      ((List.enumFrom n lines).map (fun p => (pyStrip p.2, p.1))).filter
        (fun p => lineAccepted p.1) := by
  induction lines generalizing n with
  | nil => rfl
  | cons l rest ih =>
    simp only [loadUrlsLoop, List.enumFrom, List.map_cons, List.filter_cons]
    by_cases h : lineAccepted (pyStrip l)
    · simp [h, ih]
    · simp [h, ih]

/-- C8: loading a batch input file keeps exactly the lines that are non-empty
after trimming, do not start with `#` and contain `spotify.com`, in file order
with their original 1-based line numbers; a file with 2 valid lines, 1 comment
line and 1 blank line yields exactly 2 items; and when no line qualifies the
loader fails fast with the error message, so the run processes zero items. -/
theorem c8_load_urls_from_file :
    (∀ lines : List String,
        (loadUrlsLoop lines 1).map (fun it => (it.url, it.line_number)) =
          specAcceptedLines lines) ∧
    (loadUrlsFromFile
        ["https://open.spotify.com/track/abc",
         "# this line is a comment",
         "   ",
         "https://open.spotify.com/album/def"] =
      Except.ok
        [{ url := "https://open.spotify.com/track/abc", line_number := 1 },
         { url := "https://open.spotify.com/album/def", line_number := 4 }]) ∧
    (∀ lines : List String, specAcceptedLines lines = [] →
        loadUrlsFromFile lines = Except.error "No valid Spotify URLs found in file") := by
  refine ⟨fun lines => loadUrlsLoop_spec lines 1, by rfl, ?_⟩
  intro lines h
  have hmap : (loadUrlsLoop lines 1).map (fun it => (it.url, it.line_number)) = [] :=
    (loadUrlsLoop_spec lines 1).trans h
  have hnil : loadUrlsLoop lines 1 = [] := List.map_eq_nil_iff.mp hmap
  simp [loadUrlsFromFile, hnil]

/-- Witness for C8: a file holding only a comment line fails fast. -/
theorem c8_load_urls_from_file_witness :
    loadUrlsFromFile ["# no urls here"] =
      Except.error "No valid Spotify URLs found in file" :=
  c8_load_urls_from_file.2.2 ["# no urls here"] (by decide)

theorem downloadTracksLoop_count_le
    (result : Nat → Track → Bool × String) (stopped : Nat → Bool) :
    ∀ (ts : List Track) (i : Nat) (st : ItemLoopState),
      (downloadTracksLoop result stopped ts i st).downloaded_count +
        (downloadTracksLoop result stopped ts i st).failed_tracks.length ≤
      st.downloaded_count + st.failed_tracks.length + ts.length := by
  intro ts
  induction ts with
  | nil => intro i st; simp [downloadTracksLoop]
  | cons t rest ih =>
    intro i st
    simp only [downloadTracksLoop]
    split
    · simp
    · by_cases hr : (result i t).1
      · simp only [hr, if_true]
        refine le_trans (ih (i + 1) _) ?_
        simp
        try omega
      · simp only [hr, if_false]
        refine le_trans (ih (i + 1) _) ?_
        simp [List.length_append]
        try omega

theorem downloadTracksLoop_count_eq
    (result : Nat → Track → Bool × String) (stopped : Nat → Bool)
    (hstop : ∀ j, stopped j = false) :
    ∀ (ts : List Track) (i : Nat) (st : ItemLoopState),
      (downloadTracksLoop result stopped ts i st).downloaded_count +
        (downloadTracksLoop result stopped ts i st).failed_tracks.length =
      st.downloaded_count + st.failed_tracks.length + ts.length := by
  intro ts
  induction ts with
  | nil => intro i st; simp [downloadTracksLoop]
  | cons t rest ih =>
    intro i st
    simp only [downloadTracksLoop, hstop i, Bool.false_eq_true, if_false]
    by_cases hr : (result i t).1
    · simp only [hr, if_true]
      rw [ih (i + 1)]
      simp
      omega
    · simp only [hr, if_false]
      rw [ih (i + 1)]
      simp [List.length_append]
      omega

/-- C1: for every bulk item whose `tracks_count` was set to the number of
fetched tracks, at every point of the per-track download loop (the state
reached after the first `k` tracks, for every `k` — the break-on-stop
semantics makes these prefix runs exactly the reachable intermediate states)
`downloaded_count + len(failed_tracks) ≤ tracks_count`, and once the loop has
processed all tracks with no stop request the two sides are equal: each track
lands in exactly one of the two counters. -/
theorem c1_item_counts_invariant
    (cfg : BulkConfiguration) (item : BulkItem) (envAt : Nat → DownloadEnv)
    (stoppedBefore : Nat → Bool) (k : Nat)
    (hcount : item.tracks_count = item.tracks.length) :
    ((downloadTracksLoop (itemTrackResult cfg item envAt) stoppedBefore
        (item.tracks.take k) 0 {}).downloaded_count +
      (downloadTracksLoop (itemTrackResult cfg item envAt) stoppedBefore
        (item.tracks.take k) 0 {}).failed_tracks.length ≤ item.tracks_count) ∧
    ((∀ j, stoppedBefore j = false) →
      (downloadTracksForItem cfg item envAt stoppedBefore).downloaded_count +
        (downloadTracksForItem cfg item envAt
          stoppedBefore).failed_tracks.length = item.tracks_count) := by
  constructor
  · refine le_trans (downloadTracksLoop_count_le _ _ _ 0 _) ?_
    have : (item.tracks.take k).length ≤ item.tracks.length :=
      by simp
    simp only [ItemLoopState.downloaded_count, ItemLoopState.failed_tracks]
    simp
    omega
  · intro hstop
    unfold downloadTracksForItem
    rw [downloadTracksLoop_count_eq _ _ hstop]
    simp [hcount]

/-- Witness for C1: the single-track fixture item, a transient-failing
adapter and no stop request reach equality. -/
theorem c1_item_counts_invariant_witness :
    (downloadTracksForItem cfg0 item0 (fun _ => envTransient)
        (fun _ => false)).downloaded_count +
      (downloadTracksForItem cfg0 item0 (fun _ => envTransient)
        (fun _ => false)).failed_tracks.length = item0.tracks_count :=
  (c1_item_counts_invariant cfg0 item0 (fun _ => envTransient)
    (fun _ => false) 1 (by rfl)).2 (fun _ => rfl)

end BulkManager

namespace BulkManager

open SpotiFLAC

/-- C4 (code bug): a per-track download that ends because the user requested
a stop IS recorded in the owning item's `failed_tracks` and counted as a
failed track, contradicting the claim.  Both stop paths are exercised: the
adapter's stop sentinel (the tidal `"Download stopped by user"` dict) and the
`is_stopped` flag observed at the start of the attempt
(`"Stopped by user"`).  The loop-top stop check does not re-run after
`_download_single_track_with_retry` returns, so the failure is appended. -/
theorem c4_user_stop_recorded_as_failed :
    (downloadTracksForItem cfg0 item0 (fun _ => envStopSentinel)
        (fun _ => false)).failed_tracks =
      [("T", "A", "Download stopped by user")] ∧
    (downloadTracksForItem cfg0 item0 (fun _ => envStopSentinel)
        (fun _ => false)).tracker_failed = 1 ∧
    (downloadTracksForItem cfg0 item0 (fun _ => envStopFlagSet)
        (fun _ => false)).failed_tracks =
      [("T", "A", "Stopped by user")] := by
  refine ⟨by decide, by decide, by decide⟩

/-- C2 counterexample: with the default bulk configuration (10 retry
attempts) a transient, non-404 network error on the first attempt marks the
track failed after exactly one adapter invocation and no backoff sleep — it
is not retried up to the configured maximum. -/
theorem c2_bulk_transient_not_retried_counterexample :
    downloadSingleTrackWithRetry cfg0 track0 item0 envTransient =
      { success := false, message := "connection reset by peer",
        adapterCalls := 1, sleeps := [] } ∧
    maxAttemptsFor cfg0 = 10 := by
  refine ⟨by decide, by decide⟩

/-- C7 helper: no operation performed by `BulkDownloadManager.run` or its
callees ever writes `processed_urls` (the only writer,
`update_url_progress`, has no caller), so the field keeps its initial 0. -/
theorem applyTrackerOps_processed_urls (ops : List TrackerOp) :
    ∀ t : BulkProgressTracker, t.processed_urls = 0 →
      (applyTrackerOps t ops).processed_urls = 0 := by
  induction ops with
  | nil => intro t h; exact h
  | cons op rest ih =>
    intro t h
    apply ih
    cases op <;>
      simp [applyTrackerOp, BulkProgressTracker.start_tracking, h]

/-- C7 (code bug): in every progress event reachable in a run, the
`progress_percentage` field is 0 — the tracker's `processed_urls` is never
updated — while the event's own `processed_urls` field is
`current_url_index + 1`; concretely, the first event of a two-item run
carries `processed_urls = 1`, `total_urls = 2` and `progress_percentage = 0`
instead of the claimed `1 / 2 * 100 = 50`. -/
theorem c7_progress_percentage_always_zero :
    (∀ (ops : List TrackerOp) (su fu : Nat),
        (emitProgressUpdate (applyTrackerOps {} ops) su fu).progress_percentage
          = 0) ∧
    (ProgressEventData.processed_urls (emitProgressUpdate
        (applyTrackerOps {}
          [TrackerOp.startTracking 2, TrackerOp.setCurrentUrlIndex 0]) 0 0) = 1 ∧
     ProgressEventData.total_urls (emitProgressUpdate
        (applyTrackerOps {}
          [TrackerOp.startTracking 2, TrackerOp.setCurrentUrlIndex 0]) 0 0) = 2 ∧
     ¬ (ProgressEventData.progress_percentage (emitProgressUpdate
          (applyTrackerOps {}
            [TrackerOp.startTracking 2, TrackerOp.setCurrentUrlIndex 0]) 0 0)
          = (1 : ℚ) / 2 * 100)) := by
  refine ⟨?_, by decide, by decide, ?_⟩
  · intro ops su fu
    have h0 : (applyTrackerOps {} ops).processed_urls = 0 :=
      applyTrackerOps_processed_urls ops {} rfl
    simp [emitProgressUpdate, BulkProgressTracker.get_progress_percentage, h0]
  · have h : ProgressEventData.progress_percentage (emitProgressUpdate
        (applyTrackerOps {}
          [TrackerOp.startTracking 2, TrackerOp.setCurrentUrlIndex 0]) 0 0)
        = 0 := by
      simp [emitProgressUpdate, applyTrackerOps, applyTrackerOp,
        BulkProgressTracker.start_tracking,
        BulkProgressTracker.get_progress_percentage]
    rw [h]
    norm_num

end BulkManager

namespace MainApp

open SpotiFLAC

/-- C5 (code bug): the `DownloadWorker` copy-from-cache step treats a cached
file that exists with size zero as a cache hit — its check (line 314 of
`SpotiFLAC.py`) tests only existence, not size — so the zero-byte cached
file is copied to the destination; by contrast the non-zero-size test used by
the other cache checks (`existsNonEmpty`) rejects the same file. -/
theorem c5_zero_byte_cached_file_used :
    workerTrackBranch wCache tCached fsZeroByteCache =
      WorkerBranch.copiedFromCache ∧
    fsZeroByteCache "/cache/T - A.flac" = some 0 ∧
    existsNonEmpty fsZeroByteCache "/cache/T - A.flac" = false := by
  refine ⟨by decide, by decide, by decide⟩

/-- C3 counterexample: in the single-track (cache) flow an adapter failing on
every attempt produces the delay sequence `[2, 2]`: the delay before attempt
3 is 2 seconds, not `min(2 × 1.5, 30) = 3` as the claimed recurrence
requires. -/
theorem c3_cache_constant_delay_counterexample :
    (download_with_retry false
      (fun _ => Except.error (PyExc.exc "boom"))).sleeps = [2, 2] ∧
    ¬ ((2 : ℚ) = min ((2 : ℚ) * (3 / 2)) 30) := by
  constructor
  · decide
  · have h : min ((2 : ℚ) * (3 / 2)) 30 = 3 := by
      rw [show (2 : ℚ) * (3 / 2) = 3 by norm_num]
      exact min_eq_left (by norm_num)
    rw [h]
    norm_num

end MainApp

namespace BulkManager

open SpotiFLAC

/-- C6: a track job whose resolved destination file already exists with
non-zero size succeeds immediately with no adapter invocation, in both the
bulk per-track flow (`_download_single_track_with_retry`, provided the run
is not already stopped and at least one attempt is configured) and the
`DownloadWorker` per-track loop. -/
theorem c6_existing_destination_idempotent :
    (∀ (cfg : BulkConfiguration) (track : Track) (item : BulkItem)
        (env : DownloadEnv),
        env.stopAt 1 = false → 0 < maxAttemptsFor cfg →
        existsNonEmpty env.fs
          (pathJoin item.output_path (getFormattedFilename cfg track item))
          = true →
        downloadSingleTrackWithRetry cfg track item env =
          { success := true, message := "File already exists",
            adapterCalls := 0, sleeps := [] }) ∧
    (∀ (w : MainApp.DownloadWorkerCfg) (t : MainApp.Track) (fs : FileSys),
        existsNonEmpty fs (MainApp.workerNewFilepath w t) = true →
        MainApp.workerTrackBranch w t fs =
          MainApp.WorkerBranch.skippedExisting) := by
  constructor
  · intro cfg track item env h1 h2 h3
    obtain ⟨k, hk⟩ : ∃ k, maxAttemptsFor cfg = k + 1 := by
      cases hmk : maxAttemptsFor cfg with
      | zero => rw [hmk] at h2; exact absurd h2 (by omega)
      | succ k => exact ⟨k, rfl⟩
    unfold downloadSingleTrackWithRetry
    rw [hk]
    simp only [downloadAttemptLoop, h1, h3]
    simp
  · intro w t fs h
    unfold MainApp.workerTrackBranch
    simp [h]

/-- Witness for C6: with the destination `out/T - A.flac` present holding 5
bytes, the bulk flow reports success at once with zero adapter calls. -/
theorem c6_existing_destination_idempotent_witness :
    downloadSingleTrackWithRetry cfg0 track0 item0 envDestPresent =
      { success := true, message := "File already exists",
        adapterCalls := 0, sleeps := [] } :=
  c6_existing_destination_idempotent.1 cfg0 track0 item0 envDestPresent
    rfl (by decide) (by decide)

/-- C9: with `retry_404_enabled = False` the bulk per-track download makes a
single attempt: it never sleeps, invokes the adapter at most once, and any
error on the first attempt — an HTTP error of any status, 404 included, or
any other exception — marks the track failed immediately. -/
theorem c9_retry_disabled_single_attempt
    (cfg : BulkConfiguration) (track : Track) (item : BulkItem)
    (env : DownloadEnv) (hdis : cfg.retry_404_enabled = false) :
    ((downloadSingleTrackWithRetry cfg track item env).sleeps = [] ∧
     (downloadSingleTrackWithRetry cfg track item env).adapterCalls ≤ 1) ∧
    (env.stopAt 1 = false →
     existsNonEmpty env.fs
       (pathJoin item.output_path (getFormattedFilename cfg track item))
       = false →
     (cfg.service = "qobuz" ∨ cfg.service = "deezer" ∨ cfg.service = "tidal") →
     track.isrc ≠ "" →
     (∀ status msg, env.adapter 1 = AdapterResult.httpError status msg →
        downloadSingleTrackWithRetry cfg track item env =
          { success := false,
            message := "HTTP " ++ toString status ++ ": " ++ msg,
            adapterCalls := 1, sleeps := [] }) ∧
     (∀ msg, env.adapter 1 = AdapterResult.exc msg →
        downloadSingleTrackWithRetry cfg track item env =
          { success := false, message := msg,
            adapterCalls := 1, sleeps := [] })) := by
  have hmax : maxAttemptsFor cfg = 1 := by simp [maxAttemptsFor, hdis]
  constructor
  · unfold downloadSingleTrackWithRetry
    rw [hmax]
    simp only [downloadAttemptLoop]
    split
    · exact ⟨rfl, by decide⟩
    split
    · exact ⟨rfl, by decide⟩
    split
    · exact ⟨rfl, by decide⟩
    split
    · exact ⟨rfl, by decide⟩
    split
    · exact ⟨rfl, by decide⟩
    split
    · exact ⟨rfl, by decide⟩
    · exact ⟨rfl, by decide⟩
    · split
      · rename_i hg
        exact absurd hg.2 (by omega)
      · exact ⟨rfl, Nat.le_refl 1⟩
    · split
      · rename_i hg
        exact absurd hg.1 (by omega)
      · exact ⟨rfl, Nat.le_refl 1⟩
  · intro h1 h2 hsvc hisrc
    constructor
    · intro status msg hadp
      unfold downloadSingleTrackWithRetry
      rw [hmax]
      simp only [downloadAttemptLoop]
      rcases hsvc with h | h | h <;>
        simp [h1, h2, h, hisrc, hadp]
    · intro msg hadp
      unfold downloadSingleTrackWithRetry
      rw [hmax]
      simp only [downloadAttemptLoop]
      rcases hsvc with h | h | h <;>
        simp [h1, h2, h, hisrc, hadp]

/-- Witness for C9: retry disabled, a 404 on the first attempt, the track is
failed at once with one adapter call and no sleep. -/
theorem c9_retry_disabled_single_attempt_witness :
    downloadSingleTrackWithRetry
      { cfg0 with retry_404_enabled := false } track0 item0
      ⟨fsEmpty, fun _ => false,
        fun _ => AdapterResult.httpError 404 "not found"⟩ =
      { success := false, message := "HTTP 404: not found",
        adapterCalls := 1, sleeps := [] } :=
  (c9_retry_disabled_single_attempt
      { cfg0 with retry_404_enabled := false } track0 item0
      ⟨fsEmpty, fun _ => false,
        fun _ => AdapterResult.httpError 404 "not found"⟩ rfl).2
    rfl (by decide) (by decide) (by decide) |>.1 404 "not found" rfl

end BulkManager

namespace BulkManager

open SpotiFLAC

/-- C2 (amended): retry classification as implemented.  In the single-track
(cache) flow any non-404 error is retried up to `MAX_DOWNLOAD_RETRIES = 3`
attempts before the track is marked failed.  In the bulk per-track flow only
errors classified as 404 (an `HTTPError` with status 404, or an exception
whose lowercased message contains "404") are retried; any other transient
error marks the track failed on the very attempt it occurs, with no retry
and no backoff sleep. -/
theorem c2_retry_classification :
    (∀ (oracle : Nat → Except MainApp.PyExc Unit) (m1 m2 m3 : String),
        oracle 1 = Except.error (MainApp.PyExc.exc m1) →
        oracle 2 = Except.error (MainApp.PyExc.exc m2) →
        oracle 3 = Except.error (MainApp.PyExc.exc m3) →
        MainApp.download_with_retry false oracle =
          { ok := false, recordedError := some m3, attempts := 3,
            sleeps := [2, 2] }) ∧
    (∀ (cfg : BulkConfiguration) (track : Track) (item : BulkItem)
        (env : DownloadEnv) (msg : String),
        env.stopAt 1 = false →
        existsNonEmpty env.fs
          (pathJoin item.output_path (getFormattedFilename cfg track item))
          = false →
        (cfg.service = "qobuz" ∨ cfg.service = "deezer" ∨
          cfg.service = "tidal") →
        track.isrc ≠ "" →
        0 < maxAttemptsFor cfg →
        ((env.adapter 1 = AdapterResult.exc msg →
            pyIn "404" (pyLower msg) = false →
            downloadSingleTrackWithRetry cfg track item env =
              { success := false, message := msg,
                adapterCalls := 1, sleeps := [] }) ∧
         (∀ status, env.adapter 1 = AdapterResult.httpError status msg →
            status ≠ 404 →
            downloadSingleTrackWithRetry cfg track item env =
              { success := false,
                message := "HTTP " ++ toString status ++ ": " ++ msg,
                adapterCalls := 1, sleeps := [] }))) := by
  constructor
  · intro oracle m1 m2 m3 h1 h2 h3
    simp [MainApp.download_with_retry, MainApp.cacheRetryLoop, h1, h2, h3,
      MainApp.MAX_DOWNLOAD_RETRIES, MainApp.RETRY_DELAY_SECONDS]
  · intro cfg track item env msg h1 h2 hsvc hisrc hpos
    obtain ⟨k, hk⟩ : ∃ k, maxAttemptsFor cfg = k + 1 := by
      cases hmk : maxAttemptsFor cfg with
      | zero => rw [hmk] at hpos; exact absurd hpos (by omega)
      | succ k => exact ⟨k, rfl⟩
    constructor
    · intro hadp h404
      unfold downloadSingleTrackWithRetry
      rw [hk]
      simp only [downloadAttemptLoop]
      rcases hsvc with h | h | h <;>
        simp [h1, h2, h, hisrc, hadp, h404]
    · intro status hadp hst
      unfold downloadSingleTrackWithRetry
      rw [hk]
      simp only [downloadAttemptLoop]
      rcases hsvc with h | h | h <;>
        simp [h1, h2, h, hisrc, hadp, hst]

/-- Witness for C2 (amended): a cache-flow download failing with a generic
timeout on all three attempts is retried to the cap and then recorded. -/
theorem c2_retry_classification_witness :
    MainApp.download_with_retry false
      (fun _ => Except.error (MainApp.PyExc.exc "timeout")) =
      { ok := false, recordedError := some "timeout", attempts := 3,
        sleeps := [2, 2] } :=
  c2_retry_classification.1
    (fun _ => Except.error (MainApp.PyExc.exc "timeout"))
    "timeout" "timeout" "timeout" rfl rfl rfl

end BulkManager

namespace BulkManager

open SpotiFLAC

theorem backoffChain_length (n : Nat) :
    ∀ d : ℚ, (backoffChain d n).length = n := by
  induction n with
  | zero => intro d; rfl
  | succ m ih => intro d; simp [backoffChain, ih (backoffStep d)]

theorem backoffChain_getD_succ (n : Nat) :
    ∀ (d : ℚ) (i : Nat), i + 1 < n →
      (backoffChain d n).getD (i + 1) 0 =
        backoffStep ((backoffChain d n).getD i 0) := by
  induction n with
  | zero => intro d i h; exact absurd h (by omega)
  | succ m ih =>
    intro d i h
    cases i with
    | zero =>
      obtain ⟨m', rfl⟩ : ∃ m', m = m' + 1 := ⟨m - 1, by omega⟩
      simp [backoffChain, List.getD_cons_succ, List.getD_cons_zero]
    | succ j =>
      simp only [backoffChain, List.getD_cons_succ]
      exact ih (backoffStep d) j (by omega)

theorem backoffChain_getD_zero (d : ℚ) (m : Nat) :
    (backoffChain d (m + 1)).getD 0 0 = d := by
  simp [backoffChain]

theorem backoffStep_le_cap (d : ℚ) : backoffStep d ≤ 30 :=
  min_le_right _ _

theorem backoffStep_nonneg (d : ℚ) (h : 0 ≤ d) : 0 ≤ backoffStep d :=
  le_min (mul_nonneg h (by norm_num)) (by norm_num)

theorem le_backoffStep (d : ℚ) (h0 : 0 ≤ d) (h30 : d ≤ 30) :
    d ≤ backoffStep d :=
  le_min (by linarith) h30

theorem backoffChain_mem_bounds (n : Nat) :
    ∀ d : ℚ, 0 ≤ d → d ≤ 30 → ∀ x ∈ backoffChain d n, 0 ≤ x ∧ x ≤ 30 := by
  induction n with
  | zero => intro d _ _ x hx; simp [backoffChain] at hx
  | succ m ih =>
    intro d h0 h30 x hx
    simp only [backoffChain, List.mem_cons] at hx
    rcases hx with rfl | hx
    · exact ⟨h0, h30⟩
    · exact ih (backoffStep d) (backoffStep_nonneg d h0)
        (backoffStep_le_cap d) x hx

theorem backoffChain_getD_mem (n : Nat) :
    ∀ (d : ℚ) (i : Nat), i < n →
      (backoffChain d n).getD i 0 ∈ backoffChain d n := by
  induction n with
  | zero => intro d i h; exact absurd h (by omega)
  | succ m ih =>
    intro d i h
    cases i with
    | zero => simp [backoffChain]
    | succ j =>
      simp only [backoffChain, List.getD_cons_succ, List.mem_cons]
      exact Or.inr (ih (backoffStep d) j (by omega))

theorem downloadAttemptLoop_sleeps_chain (cfg : BulkConfiguration)
    (track : Track) (item : BulkItem) (env : DownloadEnv) (maxA : Nat) :
    ∀ (fuel a : Nat) (d : ℚ),
      ∃ n, (downloadAttemptLoop cfg track item env maxA fuel a d).sleeps =
        backoffChain d n := by
  intro fuel
  induction fuel with
  | zero => intro a d; exact ⟨0, rfl⟩
  | succ f ih =>
    intro a d
    simp only [downloadAttemptLoop]
    split
    · exact ⟨0, rfl⟩
    split
    · exact ⟨0, rfl⟩
    split
    · exact ⟨0, rfl⟩
    split
    · exact ⟨0, rfl⟩
    split
    · exact ⟨0, rfl⟩
    split
    · exact ⟨0, rfl⟩
    · exact ⟨0, rfl⟩
    · split
      · obtain ⟨n, hn⟩ := ih (a + 1) (backoffStep d)
        exact ⟨n + 1, by simp [backoffChain, hn]⟩
      · exact ⟨0, rfl⟩
    · split
      · obtain ⟨n, hn⟩ := ih (a + 1) (backoffStep d)
        exact ⟨n + 1, by simp [backoffChain, hn]⟩
      · exact ⟨0, rfl⟩

theorem cacheRetryLoop_sleeps_const :
    ∀ (fuel a : Nat) (hit : Bool)
      (oracle : Nat → Except MainApp.PyExc Unit),
      ∀ x ∈ (MainApp.cacheRetryLoop hit oracle fuel a).sleeps, x = 2 := by
  intro fuel
  induction fuel with
  | zero =>
    intro a hit oracle x hx
    simp [MainApp.cacheRetryLoop] at hx
  | succ f ih =>
    intro a hit oracle x hx
    simp only [MainApp.cacheRetryLoop] at hx
    split at hx
    · simp at hx
    · split at hx
      · simp only [MainApp.RETRY_DELAY_SECONDS, List.mem_cons] at hx
        rcases hx with rfl | hx
        · rfl
        · exact ih (a + 1) hit oracle x hx
      · simp at hx
    · split at hx
      · simp only [MainApp.RETRY_DELAY_SECONDS, List.mem_cons] at hx
        rcases hx with rfl | hx
        · rfl
        · exact ih (a + 1) hit oracle x hx
      · simp at hx

end BulkManager

namespace BulkManager

open SpotiFLAC

/-- C3 (amended): backoff shape as implemented.  In the bulk per-track flow
the slept delays start at the configured `retry_404_delay` (default 3
seconds) and follow `delay(n+1) = min(delay(n) * 1.5, 30)`; when the
configured base is at most the 30-second cap the sequence never decreases
and never exceeds the cap.  The single-track (cache) flow does not follow
that recurrence: it sleeps the constant 2 seconds before every retry. -/
theorem c3_backoff_shape :
    (∀ (cfg : BulkConfiguration) (track : Track) (item : BulkItem)
        (env : DownloadEnv) (i : Nat),
        i + 1 <
          (downloadSingleTrackWithRetry cfg track item env).sleeps.length →
        (downloadSingleTrackWithRetry cfg track item env).sleeps.getD
            (i + 1) 0 =
          min ((downloadSingleTrackWithRetry cfg track item
            env).sleeps.getD i 0 * (3 / 2)) 30) ∧
    (∀ (cfg : BulkConfiguration) (track : Track) (item : BulkItem)
        (env : DownloadEnv),
        (downloadSingleTrackWithRetry cfg track item env).sleeps ≠ [] →
        (downloadSingleTrackWithRetry cfg track item env).sleeps.getD 0 0 =
          (cfg.retry_404_delay : ℚ)) ∧
    (∀ (cfg : BulkConfiguration) (track : Track) (item : BulkItem)
        (env : DownloadEnv) (i : Nat),
        (cfg.retry_404_delay : ℚ) ≤ 30 →
        i + 1 <
          (downloadSingleTrackWithRetry cfg track item env).sleeps.length →
        (downloadSingleTrackWithRetry cfg track item env).sleeps.getD i 0 ≤
          (downloadSingleTrackWithRetry cfg track item env).sleeps.getD
            (i + 1) 0) ∧
    (∀ (cfg : BulkConfiguration) (track : Track) (item : BulkItem)
        (env : DownloadEnv) (x : ℚ),
        (cfg.retry_404_delay : ℚ) ≤ 30 →
        x ∈ (downloadSingleTrackWithRetry cfg track item env).sleeps →
        x ≤ 30) ∧
    (∀ (hit : Bool) (oracle : Nat → Except MainApp.PyExc Unit) (x : ℚ),
        x ∈ (MainApp.download_with_retry hit oracle).sleeps → x = 2) := by
  refine ⟨?_, ?_, ?_, ?_, ?_⟩
  · intro cfg track item env i h
    obtain ⟨n, hn⟩ := downloadAttemptLoop_sleeps_chain cfg track item env
      (maxAttemptsFor cfg) (maxAttemptsFor cfg) 1 (cfg.retry_404_delay : ℚ)
    have hs : (downloadSingleTrackWithRetry cfg track item env).sleeps =
        backoffChain (cfg.retry_404_delay : ℚ) n := hn
    rw [hs] at h ⊢
    rw [backoffChain_length] at h
    rw [backoffChain_getD_succ n _ i h]
    rfl
  · intro cfg track item env hne
    obtain ⟨n, hn⟩ := downloadAttemptLoop_sleeps_chain cfg track item env
      (maxAttemptsFor cfg) (maxAttemptsFor cfg) 1 (cfg.retry_404_delay : ℚ)
    have hs : (downloadSingleTrackWithRetry cfg track item env).sleeps =
        backoffChain (cfg.retry_404_delay : ℚ) n := hn
    rw [hs] at hne ⊢
    cases n with
    | zero => exact absurd rfl hne
    | succ m => exact backoffChain_getD_zero _ m
  · intro cfg track item env i hcap h
    obtain ⟨n, hn⟩ := downloadAttemptLoop_sleeps_chain cfg track item env
      (maxAttemptsFor cfg) (maxAttemptsFor cfg) 1 (cfg.retry_404_delay : ℚ)
    have hs : (downloadSingleTrackWithRetry cfg track item env).sleeps =
        backoffChain (cfg.retry_404_delay : ℚ) n := hn
    rw [hs] at h ⊢
    rw [backoffChain_length] at h
    rw [backoffChain_getD_succ n _ i h]
    have hmem : (backoffChain (cfg.retry_404_delay : ℚ) n).getD i 0 ∈
        backoffChain (cfg.retry_404_delay : ℚ) n :=
      backoffChain_getD_mem n _ i (by omega)
    obtain ⟨h0, h30⟩ := backoffChain_mem_bounds n _
      (by positivity) hcap _ hmem
    exact le_backoffStep _ h0 h30
  · intro cfg track item env x hcap hx
    obtain ⟨n, hn⟩ := downloadAttemptLoop_sleeps_chain cfg track item env
      (maxAttemptsFor cfg) (maxAttemptsFor cfg) 1 (cfg.retry_404_delay : ℚ)
    have hs : (downloadSingleTrackWithRetry cfg track item env).sleeps =
        backoffChain (cfg.retry_404_delay : ℚ) n := hn
    rw [hs] at hx
    exact (backoffChain_mem_bounds n _ (by positivity) hcap x hx).2
  · intro hit oracle x hx
    exact cacheRetryLoop_sleeps_const MainApp.MAX_DOWNLOAD_RETRIES 1
      hit oracle x hx

/-- Witness for C3 (amended): a bulk run that hits 404 on every attempt
realizes the recurrence between its first two delays. -/
theorem c3_backoff_shape_witness :
    (downloadSingleTrackWithRetry cfg0 track0 item0
        ⟨fsEmpty, fun _ => false,
          fun _ => AdapterResult.httpError 404 "not found"⟩).sleeps.getD
        (0 + 1) 0 =
      min ((downloadSingleTrackWithRetry cfg0 track0 item0
        ⟨fsEmpty, fun _ => false,
          fun _ => AdapterResult.httpError 404 "not found"⟩).sleeps.getD
        0 0 * (3 / 2)) 30 :=
  c3_backoff_shape.1 cfg0 track0 item0
    ⟨fsEmpty, fun _ => false,
      fun _ => AdapterResult.httpError 404 "not found"⟩ 0 (by decide)

end BulkManager

namespace MainApp

open SpotiFLAC

theorem add_to_queue_noop (st : CacheWorkerState) (i : Nat)
    (h : st.tracks[i]? = none ∨
      ∃ tr, st.tracks[i]? = some tr ∧
        (tr.cached_file ≠ "" ∨ tr.is_downloading = true ∨
          tr.cache_error ≠ "")) :
    add_to_queue st i = st := by
  rcases h with h | ⟨tr, h, hdis⟩
  · simp only [add_to_queue, h]
  · simp only [add_to_queue, h]
    have hcond : ¬ (tr.cached_file = "" ∧ tr.is_downloading = false ∧
        tr.cache_error = "") := by
      rcases hdis with h1 | h1 | h1 <;> intro hc <;>
        simp [hc.1, hc.2.1, hc.2.2] at h1
    rw [if_neg hcond]

theorem applyCacheOp_keeps_error (st : CacheWorkerState) (op : CacheOp)
    (hop : cacheOpKeepsError op = true) (i : Nat) (tr : Track)
    (h : st.tracks[i]? = some tr) (herr : tr.cache_error ≠ "") :
    ∃ tr', (applyCacheOp st op).tracks[i]? = some tr' ∧
      tr'.cache_error ≠ "" := by
  cases op with
  | add j =>
    simp only [applyCacheOp]
    cases hj : st.tracks[j]? with
    | none =>
      simp only [add_to_queue, hj]
      exact ⟨tr, h, herr⟩
    | some tj =>
      simp only [add_to_queue, hj]
      by_cases hcond : tj.cached_file = "" ∧ tj.is_downloading = false ∧
          tj.cache_error = ""
      · rw [if_pos hcond]
        by_cases hij : j = i
        · subst hij
          rw [hj] at h
          injection h with h
          subst h
          exact absurd hcond.2.2 herr
        · refine ⟨tr, ?_, herr⟩
          simp only []
          rw [List.getElem?_set_ne hij]
          exact h
      · rw [if_neg hcond]
        exact ⟨tr, h, herr⟩
  | popQueue =>
    simp only [applyCacheOp]
    exact ⟨tr, h, herr⟩
  | markCached j p =>
    simp only [applyCacheOp, mark_cached]
    cases hj : st.tracks[j]? with
    | none => exact ⟨tr, h, herr⟩
    | some tj =>
      by_cases hij : j = i
      · subst hij
        rw [hj] at h
        injection h with h
        subst h
        refine ⟨{ tj with cached_file := p, is_downloading := false },
          ?_, herr⟩
        have hlt : j < st.tracks.length := (List.getElem?_eq_some.mp hj).1
        simp only []
        exact List.getElem?_set_eq_of_lt _ hlt
      · refine ⟨tr, ?_, herr⟩
        simp only []
        rw [List.getElem?_set_ne hij]
        exact h
  | handleErr j m =>
    have hm : m ≠ "" := of_decide_eq_true hop
    simp only [applyCacheOp, handle_error]
    cases hj : st.tracks[j]? with
    | none => exact ⟨tr, h, herr⟩
    | some tj =>
      by_cases hij : j = i
      · subst hij
        refine ⟨{ tj with is_downloading := false, cache_error := m },
          ?_, hm⟩
        have hlt : j < st.tracks.length := (List.getElem?_eq_some.mp hj).1
        simp only []
        exact List.getElem?_set_eq_of_lt _ hlt
      · refine ⟨tr, ?_, herr⟩
        simp only []
        rw [List.getElem?_set_ne hij]
        exact h

theorem applyCacheOps_keeps_error (ops : List CacheOp) :
    ∀ (st : CacheWorkerState) (i : Nat) (tr : Track),
      ops.all cacheOpKeepsError = true →
      st.tracks[i]? = some tr → tr.cache_error ≠ "" →
      ∃ tr', (applyCacheOps st ops).tracks[i]? = some tr' ∧
        tr'.cache_error ≠ "" := by
  induction ops with
  | nil => intro st i tr _ h herr; exact ⟨tr, h, herr⟩
  | cons op rest ih =>
    intro st i tr hall h herr
    rw [List.all_cons, Bool.and_eq_true] at hall
    obtain ⟨tr', h', herr'⟩ :=
      applyCacheOp_keeps_error st op hall.1 i tr h herr
    exact ih (applyCacheOp st op) i tr' hall.2 h' herr'

/-- C10: once a caching attempt for a track has failed (`cache_error` set to
the non-empty `str(exception)`), every later `add_to_queue` for that index is
a no-op after any interleaving of the worker's operations — the track is
never re-enqueued for the lifetime of the loaded track list, because no
operation ever clears `cache_error`; and `add_to_queue` never enqueues an
out-of-range index, an already-cached track or a track already
downloading. -/
theorem c10_cache_error_blocks_requeue :
    (∀ (st : CacheWorkerState) (i : Nat) (tr : Track)
        (ops : List CacheOp),
        st.tracks[i]? = some tr → tr.cache_error ≠ "" →
        ops.all cacheOpKeepsError = true →
        add_to_queue (applyCacheOps st ops) i = applyCacheOps st ops) ∧
    (∀ (st : CacheWorkerState) (i : Nat),
        st.tracks.length ≤ i → add_to_queue st i = st) ∧
    (∀ (st : CacheWorkerState) (i : Nat) (tr : Track),
        st.tracks[i]? = some tr →
        (tr.cached_file ≠ "" ∨ tr.is_downloading = true ∨
          tr.cache_error ≠ "") →
        add_to_queue st i = st) := by
  refine ⟨?_, ?_, ?_⟩
  · intro st i tr ops h herr hall
    obtain ⟨tr', h', herr'⟩ :=
      applyCacheOps_keeps_error ops st i tr hall h herr
    exact add_to_queue_noop _ i
      (Or.inr ⟨tr', h', Or.inr (Or.inr herr')⟩)
  · intro st i h
    exact add_to_queue_noop st i (Or.inl (List.getElem?_eq_none h))
  · intro st i tr h hdis
    exact add_to_queue_noop st i (Or.inr ⟨tr, h, hdis⟩)

/-- Witness for C10: with a one-track list whose caching already failed, an
`add_to_queue`, a queue pop and a further `add_to_queue` leave the state
unchanged. -/
theorem c10_cache_error_blocks_requeue_witness :
    add_to_queue
        (applyCacheOps stErrored [CacheOp.add 0, CacheOp.popQueue]) 0 =
      applyCacheOps stErrored [CacheOp.add 0, CacheOp.popQueue] :=
  c10_cache_error_blocks_requeue.1 stErrored 0 _
    [CacheOp.add 0, CacheOp.popQueue] rfl (by decide) (by decide)

end MainApp
